import Mathlib

/-!
Verification of the coin mesh synthesis pipeline of the 3d-coin-maker
repository, shallowly embedded from
`backend/core/services/hmm_manifold_generator.py`,
`backend/core/models.py` and `backend/core/constants.py`.

Python floats are modelled by `ℚ`, pixel counts by `ℕ`.  Calls into
external collaborators (the HMM mesher subprocess, the manifold3d
boolean-solid library, PIL image I/O, trimesh STL export) are modelled
by explicit oracle/parameter records whose possible outcomes mirror the
outcomes the Python code distinguishes; the orchestration and the
numeric transform logic are translated directly from the source.
-/

namespace CoinMaker

/-- The `CoinShape` enum from `core/models.py` (`circle`, `square`, `hexagon`,
`octagon`). -/
inductive CoinShape : Type
  | circle
  | square
  | hexagon
  | octagon
  deriving DecidableEq, Repr

/-- The `CoinParameters` frozen dataclass from `core/models.py` (fields
only; validation lives in `mkCoinParameters`, the model of
`__post_init__`).  The Python dataclass is declared `frozen=True`, so
like this Lean structure it admits no mutation after construction. -/
structure CoinParameters where
  shape : CoinShape
  diameter : ℚ
  thickness : ℚ
  relief_depth : ℚ
  scale : ℚ
  offset_x : ℚ
  offset_y : ℚ
  rotation : ℚ
  deriving DecidableEq, Repr

/-- Construction of a `CoinParameters`, i.e. the dataclass constructor
followed by `CoinParameters.__post_init__` (`core/models.py` lines
94-105): each guard raises `ValueError` with the given message, in
source order.  A raised `ValueError` is modelled as `Except.error`. -/
def mkCoinParameters (shape : CoinShape) (diameter thickness relief_depth scale offset_x offset_y rotation : ℚ) :
    Except String CoinParameters :=
  if diameter ≤ 1/100 then
    .error ("Diameter must be greater than 0.01mm")
  else if thickness ≤ 1/100 then
    .error ("Thickness must be greater than 0.01mm")
  else if relief_depth ≤ 1/100 then
    .error ("Relief depth must be greater than 0.01mm")
  else if thickness ≤ relief_depth then
    .error ("Relief depth must be less than coin thickness")
  else if scale ≤ 1/100000 then
    .error ("Scale must be greater than 0.00001%")
  else
    .ok ⟨shape, diameter, thickness, relief_depth, scale, offset_x, offset_y, rotation⟩

/-- Whether an `Except` is a success. -/
def exceptOk {ε α : Type} : Except ε α → Bool
  | .ok _ => true
  | .error _ => false

/-! ## Heightmap preprocessing (`_preprocess_heightmap`) -/

/-- Constant `ProcessingConstants.IMAGE_RESIZE_TARGET` from `core/constants.py`. -/
def IMAGE_RESIZE_TARGET : ℕ := 2048

/-- Constant `ProcessingConstants.DEFAULT_RELIEF_BASE_THICKNESS` from
`core/constants.py`. -/
def DEFAULT_RELIEF_BASE_THICKNESS : ℚ := 1/10

/-- The resize arithmetic of `_preprocess_heightmap` (lines 342-347):
`if img.width > img.height` the new size is
`(TARGET, int(TARGET*h/w))`, otherwise `(int(TARGET*w/h), TARGET)`.
Python `int()` on these non-negative quotients truncates, which is `ℕ`
division. -/
def resizedDims (w h : ℕ) : ℕ × ℕ :=
  if w > h then
    (IMAGE_RESIZE_TARGET, IMAGE_RESIZE_TARGET * h / w)
  else
    (IMAGE_RESIZE_TARGET * w / h, IMAGE_RESIZE_TARGET)

/-- Outcomes of the PIL image operations inside `_preprocess_heightmap`:
`readOk` is whether `Image.open` on the heightmap succeeds (it is opened
once to read dimensions and once to process; the same file, so one
flag), `processOk` is whether the convert/resize/rotate/save steps after
a successful open succeed.  An exception anywhere is caught by the
enclosing `try`/`except` blocks of the source. -/
structure PreEnv where
  readOk : Bool
  processOk : Bool
  deriving DecidableEq, Repr

/-- Result of `_preprocess_heightmap`: either the original heightmap
path is returned unchanged, or a new temporary image is produced; for
the latter we record the pixel dimensions it has before the (canvas-
expanding) rotation step and whether the rotation step was applied. -/
inductive PreOutcome : Type
  | original
  | processed (dims : ℕ × ℕ) (rotated : Bool)
  deriving DecidableEq, Repr

/-- Model of `HMMManifoldGenerator._preprocess_heightmap`
(`hmm_manifold_generator.py` lines 297-364) on an image of size
`w × h` pixels.  `needs_transformation = (rotation != 0)`;
`needs_resize` is set only if the dimension read succeeds and
`max(width, height) > IMAGE_RESIZE_TARGET`; if neither holds the
original path is returned; otherwise the image is re-opened, converted,
optionally resized, optionally rotated and saved, and on any exception
the original path is returned. -/
def preprocess_heightmap (env : PreEnv) (rotation : ℚ) (w h : ℕ) : PreOutcome :=
  let needsTransformation : Bool := rotation ≠ 0
  let needsResize : Bool := env.readOk && decide (max w h > IMAGE_RESIZE_TARGET)
  if ¬needsTransformation ∧ ¬needsResize then
    .original
  else if env.readOk && env.processOk then
    .processed (if needsResize then resizedDims w h else (w, h)) needsTransformation
  else
    .original

/-! ## Relief transform geometry (`_generate_relief_mesh_with_hmm`, steps 1-5) -/

/-- A mesh vertex; Python float coordinates modelled by `ℚ`. -/
structure P3 where
  x : ℚ
  y : ℚ
  z : ℚ
  deriving DecidableEq, Repr

/-- A loaded relief mesh, modelled by its vertex list (the transform
steps act pointwise on vertices and read only the bounding box, so the
triangle topology is irrelevant to them). -/
abbrev Mesh := List P3

/-- Model of `Manifold.scale([f, f, 1.0])` of manifold3d: componentwise scaling
of every vertex, Z factor 1. -/
def scaleXY (f : ℚ) (p : P3) : P3 := ⟨f * p.x, f * p.y, p.z⟩

/-- Model of `Manifold.translate([vx, vy, vz])` of manifold3d: componentwise
translation of every vertex. -/
def translateP (v : P3) (p : P3) : P3 := ⟨p.x + v.x, p.y + v.y, p.z + v.z⟩

/-- Fold of `min` over a list with explicit start. -/
def foldMin (a : ℚ) (l : List ℚ) : ℚ := l.foldl min a

/-- Fold of `max` over a list with explicit start. -/
def foldMax (a : ℚ) (l : List ℚ) : ℚ := l.foldl max a

/-- Component `bounding_box()[0]` (min x) of a manifold with the given vertices
(0 for the empty mesh, which the transform never receives). -/
def minX : Mesh → ℚ
  | [] => 0
  | p :: ps => foldMin p.x (ps.map P3.x)

/-- Component `bounding_box()[3]` (max x). -/
def maxX : Mesh → ℚ
  | [] => 0
  | p :: ps => foldMax p.x (ps.map P3.x)

/-- Component `bounding_box()[1]` (min y). -/
def minY : Mesh → ℚ
  | [] => 0
  | p :: ps => foldMin p.y (ps.map P3.y)

/-- Component `bounding_box()[4]` (max y). -/
def maxY : Mesh → ℚ
  | [] => 0
  | p :: ps => foldMax p.y (ps.map P3.y)

/-- The width `bounds[3] - bounds[0]` of the XY bounding box used by the
transform. -/
def bboxWidth (m : Mesh) : ℚ := maxX m - minX m

/-- X coordinate of the bounding-box centre,
`(bounds[0] + bounds[3]) / 2` as in step 3 of the transform. -/
def centerX (m : Mesh) : ℚ := (minX m + maxX m) / 2

/-- Y coordinate of the bounding-box centre. -/
def centerY (m : Mesh) : ℚ := (minY m + maxY m) / 2

/-- Steps 1-2 of the transform: `base_scale_factor = coin_diameter /
relief_width` with `relief_width = bounds[3] - bounds[0]`,
`final_scale_factor = base_scale_factor * (scale_percent / 100.0)`,
then `relief_manifold.scale([f, f, 1.0])`. -/
def transformScale (mesh : Mesh) (scale_percent coin_diameter : ℚ) : Mesh :=
  mesh.map (scaleXY (coin_diameter / (maxX mesh - minX mesh) * (scale_percent / 100)))

/-- Step 3 of the transform: translate so the XY bounding-box centre is
at the origin. -/
def transformCenter (scaled_relief : Mesh) : Mesh :=
  scaled_relief.map (translateP ⟨-centerX scaled_relief, -centerY scaled_relief, 0⟩)

/-- Step 4 of the transform: rotate about Z only when `rotation != 0`. -/
def transformRotate (rotFn : P3 → P3) (centered_relief : Mesh) (rotation : ℚ) : Mesh :=
  if rotation ≠ 0 then centered_relief.map rotFn else centered_relief

/-- Step 5 of the transform: offset by
`(offset_x_percent / 100.0 * coin_diameter,
-(offset_y_percent / 100.0) * coin_diameter, 0)` (Y flipped); the
translation is skipped when both components are zero. -/
def transformOffset (rotated_relief : Mesh)
    (offset_x_percent offset_y_percent coin_diameter : ℚ) : Mesh :=
  if offset_x_percent / 100 * coin_diameter ≠ 0 ∨ -(offset_y_percent / 100) * coin_diameter ≠ 0 then
    rotated_relief.map
      (translateP ⟨offset_x_percent / 100 * coin_diameter, -(offset_y_percent / 100) * coin_diameter, 0⟩)
  else
    rotated_relief

/-- Steps 1-5 of `_generate_relief_mesh_with_hmm`
(`hmm_manifold_generator.py` lines 239-278): scale so the relief width
matches the coin diameter times the user scale, centre the bounding box
at the origin, rotate about Z when `rotation != 0`, then offset by the
user offsets as percentages of the diameter with the Y sign flipped.
`rotFn` is the Z-axis rotation map the manifold3d library applies for
the requested angle; its trigonometric definition lives in the external
library, so it is a parameter of the model. -/
def transformRelief (rotFn : P3 → P3) (mesh : Mesh)
    (scale_percent offset_x_percent offset_y_percent rotation coin_diameter : ℚ) : Mesh :=
  transformOffset
    (transformRotate rotFn (transformCenter (transformScale mesh scale_percent coin_diameter))
      rotation)
    offset_x_percent offset_y_percent coin_diameter

/-! ## Coin shape solids as point-set regions (`_create_coin_shape`, square arm) -/

/-- Model of `Manifold.cube([sx, sy, sz])` of manifold3d with its default
`center=False`: the axis-aligned cuboid spanning
`[0, sx] × [0, sy] × [0, sz]`. -/
def cubeRegion (sx sy sz : ℚ) : P3 → Bool := fun p =>
  decide (0 ≤ p.x ∧ p.x ≤ sx ∧ 0 ≤ p.y ∧ p.y ≤ sy ∧ 0 ≤ p.z ∧ p.z ≤ sz)

/-- Model of `Manifold.translate([vx, vy, vz])` acting on a solid region. -/
def translateRegion (v : P3) (R : P3 → Bool) : P3 → Bool := fun p =>
  R ⟨p.x - v.x, p.y - v.y, p.z - v.z⟩

/-- The primary construction of the square arm in `_create_coin_shape`
(`hmm_manifold_generator.py` lines 374-386):
`CrossSection.square([diameter, diameter], center=True)` extruded by
`extrude(height)` — a square footprint of side `diameter` centred at
the XY origin, extruded from `z = 0` to `z = height`. -/
def squareExtruded (diameter height : ℚ) : P3 → Bool := fun p =>
  decide (-(diameter / 2) ≤ p.x ∧ p.x ≤ diameter / 2 ∧
          -(diameter / 2) ≤ p.y ∧ p.y ≤ diameter / 2 ∧
          0 ≤ p.z ∧ p.z ≤ height)

/-- The fallback branch of the square arm in `_create_coin_shape` (lines 388-392):
`Manifold.cube([diameter, diameter, height]).translate([-diameter / 2,
-diameter / 2, height / 2])`. -/
def squareFallback (diameter height : ℚ) : P3 → Bool :=
  translateRegion ⟨-(diameter / 2), -(diameter / 2), height / 2⟩
    (cubeRegion diameter diameter height)

/-! ## The mesh combiner (`_combine_relief_with_base`) -/

/-- Status of a manifold3d solid: the code only ever compares it
against `m3d.Error.NoError`, so the model keeps `noError` and one
representative error value. -/
inductive M3dStatus : Type
  | noError
  | errorStatus
  deriving DecidableEq, Repr

/-- Abstract view of an `m3d.Manifold` at the combiner/orchestrator
level: the code branches only on `num_vert()`, `num_tri()` and
`status()`. -/
structure Manifold where
  numVert : ℕ
  numTri : ℕ
  status : M3dStatus
  deriving DecidableEq, Repr

/-- The external manifold3d operations `_combine_relief_with_base` and
`generate_stl` invoke, supplied as an oracle table (their geometry is
computed by the external library): `intersectOp` is the `^` operator,
`unionOp` the `+` operator, `translateZ m t` is
`m.translate([0, 0, t])` (which preserves counts and status, but
nothing below depends on that), `createShape shape d h` is
`_create_coin_shape(shape, d, h)` (whose output counts/status come from
the library primitives), and `alternative m shape d tt` is the result
of the self-contained subroutine
`_alternative_intersection_approach(m, shape, d, tt)` (`none` when it
fails). -/
structure MOps where
  intersectOp : Manifold → Manifold → Manifold
  unionOp : Manifold → Manifold → Manifold
  translateZ : Manifold → ℚ → Manifold
  createShape : CoinShape → ℚ → ℚ → Manifold
  alternative : Manifold → CoinShape → ℚ → ℚ → Option Manifold

/-- Result of `_combine_relief_with_base`: `viaA` when Strategy A
returned its union, `viaB` when Strategy B
(`_alternative_intersection_approach`) was invoked, carrying the result of
that subroutine. -/
inductive CombineResult : Type
  | viaA (final : Manifold)
  | viaB (result : Option Manifold)

/-- Model of `HMMManifoldGenerator._combine_relief_with_base`
(`hmm_manifold_generator.py` lines 401-485).  Strategy A clips the
relief with a coin mask of height `relief_depth +
DEFAULT_RELIEF_BASE_THICKNESS` using `^`; a zero-vertex clip (whatever
the status) falls back to Strategy B, a bad status with nonzero
vertices proceeds with a logged warning; the clipped relief is
translated up by `base_height` and unioned with the base via `+`; a bad
union status, or a union vertex count not exceeding that of the base, falls
back to Strategy B; otherwise the union is returned. -/
def combine_relief_with_base (ops : MOps) (relief_mesh base_coin : Manifold)
    (shape : CoinShape) (diameter relief_depth base_height : ℚ) : CombineResult :=
  let coin_mask := ops.createShape shape diameter (relief_depth + DEFAULT_RELIEF_BASE_THICKNESS)
  let clipped_relief := ops.intersectOp relief_mesh coin_mask
  let strategyB :=
    CombineResult.viaB (ops.alternative relief_mesh shape diameter (base_height + relief_depth))
  let unionStep :=
    let positioned_relief := ops.translateZ clipped_relief base_height
    let final_mesh := ops.unionOp base_coin positioned_relief
    if final_mesh.status ≠ M3dStatus.noError then strategyB
    else if final_mesh.numVert ≤ base_coin.numVert then strategyB
    else CombineResult.viaA final_mesh
  if clipped_relief.status ≠ M3dStatus.noError then
    if clipped_relief.numVert = 0 then strategyB else unionStep
  else if clipped_relief.numVert = 0 then strategyB
  else unionStep

/-- Collapse of a `CombineResult` to what `generate_stl` receives
(`viaB` hands through the `Optional` result of the subroutine). -/
def combineToOption : CombineResult → Option Manifold
  | .viaA m => some m
  | .viaB r => r

/-! ## The orchestrator (`generate_stl`) -/

/-- State of the output path after a `generate_stl` call, the path
being absent beforehand (the code touches it only through the final
trimesh `export`). -/
inductive FileState : Type
  | absent
  | incomplete
  | complete
  deriving DecidableEq, Repr

/-- Outcome of the external export tail
(`final_mesh.to_mesh()`/numpy conversion/`trimesh` construction and
`export(str(output_path))`): success; an exception after `export` has
written part of the file (the code hands `output_path` itself to
`export`, with no temporary path); or an exception before anything
reached the path. -/
inductive ExportOutcome : Type
  | ok
  | failAfterWrite
  | failNoWrite
  deriving DecidableEq, Repr

/-- Oracle inputs of one `generate_stl` invocation: the result of
`_generate_relief_mesh_with_hmm` (`none` covers each of its internal
failure exits, which that function catches and maps to `None`), the
manifold3d operation table, the export outcome and the text of the
export exception if one is raised. -/
structure GenEnv where
  reliefResult : Option Manifold
  ops : MOps
  exportOutcome : ExportOutcome
  exportError : String

/-- Observable result of `generate_stl`: the returned
`(success, error message)` pair plus what the call did on the way:
whether `_create_coin_shape` ran, whether the combination step ran,
whether the export tail ran, and the final state of the output path. -/
structure GenResult where
  success : Bool
  message : Option String
  shapeConstructed : Bool
  combineAttempted : Bool
  exportAttempted : Bool
  fileState : FileState
  deriving DecidableEq, Repr

/-- Error message of `generate_stl` when
`_generate_relief_mesh_with_hmm` returns `None` (line 57). -/
def HMM_FAILURE_MSG : String :=
  "Failed to generate relief mesh with HMM - check logs for detailed error information"

/-- Error message of the `base_height <= 0` guard (line 72); it names
the base height, the thickness and the relief depth. -/
def baseHeightErrorMsg (base_height thickness relief_depth : ℚ) : String :=
  "Invalid coin parameters: base height " ++ toString base_height ++
    "mm (thickness: " ++ toString thickness ++ "mm, relief: " ++ toString relief_depth ++
    "mm). Relief depth must be less than thickness."

/-- Error message when the combination step yields nothing (line 86). -/
def COMBINE_FAILURE_MSG : String :=
  "Failed to combine relief with coin base using Manifold3D boolean operations"

/-- Prefix of the message built by the top-level `except` handler
(line 112), completed by the exception text. -/
def EXPORT_ERROR_HEAD : String := "STL generation failed with error: "

/-- Model of `HMMManifoldGenerator.generate_stl` (`hmm_manifold_generator.py`
lines 25-122).  The whole body sits in one `try`/`except Exception`
whose handler returns `(False, message)`, so the model is a total
function into `GenResult`; all failures of the relief step surface as
`reliefResult = none`, and an exception in the export tail reaches the
handler with the file in whatever state the direct-to-path write left
it (no temporary file, no rename, no delete-on-error). -/
def generate_stl (env : GenEnv) (cp : CoinParameters) : GenResult :=
  match env.reliefResult with
  | none =>
      ⟨false, some HMM_FAILURE_MSG, false, false, false, .absent⟩
  | some relief_mesh =>
      let base_height := cp.thickness - cp.relief_depth
      if base_height ≤ 0 then
        ⟨false, some (baseHeightErrorMsg base_height cp.thickness cp.relief_depth),
          false, false, false, .absent⟩
      else
        let base_coin := env.ops.createShape cp.shape cp.diameter base_height
        match combineToOption (combine_relief_with_base env.ops relief_mesh base_coin
            cp.shape cp.diameter cp.relief_depth base_height) with
        | none => ⟨false, some COMBINE_FAILURE_MSG, true, true, false, .absent⟩
        | some _final =>
            match env.exportOutcome with
            | .ok => ⟨true, none, true, true, true, .complete⟩
            | .failAfterWrite =>
                ⟨false, some (EXPORT_ERROR_HEAD ++ env.exportError), true, true, true,
                  .incomplete⟩
            | .failNoWrite =>
                ⟨false, some (EXPORT_ERROR_HEAD ++ env.exportError), true, true, true,
                  .absent⟩

end CoinMaker

namespace CoinMaker

/-! ## Bounding-box lemmas -/

theorem foldMin_map_mul (f : ℚ) (hf : 0 ≤ f) (l : List ℚ) :
    ∀ a, foldMin (f * a) (l.map (fun t => f * t)) = f * foldMin a l := by
  induction l with
  | nil => intro a; simp [foldMin]
  | cons b bs ih =>
    intro a
    simp only [List.map_cons, foldMin, List.foldl_cons] at *
    rw [← mul_min_of_nonneg _ _ hf] at *
    exact ih (min a b)

theorem foldMax_map_mul (f : ℚ) (hf : 0 ≤ f) (l : List ℚ) :
    ∀ a, foldMax (f * a) (l.map (fun t => f * t)) = f * foldMax a l := by
  induction l with
  | nil => intro a; simp [foldMax]
  | cons b bs ih =>
    intro a
    simp only [List.map_cons, foldMax, List.foldl_cons] at *
    rw [← mul_max_of_nonneg _ _ hf] at *
    exact ih (max a b)

theorem foldMin_map_add (c : ℚ) (l : List ℚ) :
    ∀ a, foldMin (a + c) (l.map (fun t => t + c)) = foldMin a l + c := by
  induction l with
  | nil => intro a; simp [foldMin]
  | cons b bs ih =>
    intro a
    simp only [List.map_cons, foldMin, List.foldl_cons] at *
    rw [min_add_add_right]
    exact ih (min a b)

theorem foldMax_map_add (c : ℚ) (l : List ℚ) :
    ∀ a, foldMax (a + c) (l.map (fun t => t + c)) = foldMax a l + c := by
  induction l with
  | nil => intro a; simp [foldMax]
  | cons b bs ih =>
    intro a
    simp only [List.map_cons, foldMax, List.foldl_cons] at *
    rw [max_add_add_right]
    exact ih (max a b)

theorem minX_map_scaleXY (f : ℚ) (hf : 0 ≤ f) (m : Mesh) :
    minX (m.map (scaleXY f)) = f * minX m := by
  cases m with
  | nil => simp [minX]
  | cons p ps =>
    simp only [List.map_cons, minX, List.map_map]
    have : (ps.map (P3.x ∘ scaleXY f)) = (ps.map P3.x).map (fun t => f * t) := by
      simp [Function.comp, scaleXY]
    rw [this]
    exact foldMin_map_mul f hf _ _

theorem maxX_map_scaleXY (f : ℚ) (hf : 0 ≤ f) (m : Mesh) :
    maxX (m.map (scaleXY f)) = f * maxX m := by
  cases m with
  | nil => simp [maxX]
  | cons p ps =>
    simp only [List.map_cons, maxX, List.map_map]
    have : (ps.map (P3.x ∘ scaleXY f)) = (ps.map P3.x).map (fun t => f * t) := by
      simp [Function.comp, scaleXY]
    rw [this]
    exact foldMax_map_mul f hf _ _

theorem minX_map_translateP (v : P3) (m : Mesh) (hm : m ≠ []) :
    minX (m.map (translateP v)) = minX m + v.x := by
  cases m with
  | nil => exact absurd rfl hm
  | cons p ps =>
    simp only [List.map_cons, minX, List.map_map]
    have : (ps.map (P3.x ∘ translateP v)) = (ps.map P3.x).map (fun t => t + v.x) := by
      simp [Function.comp, translateP]
    rw [this]
    exact foldMin_map_add v.x _ _

theorem maxX_map_translateP (v : P3) (m : Mesh) (hm : m ≠ []) :
    maxX (m.map (translateP v)) = maxX m + v.x := by
  cases m with
  | nil => exact absurd rfl hm
  | cons p ps =>
    simp only [List.map_cons, maxX, List.map_map]
    have : (ps.map (P3.x ∘ translateP v)) = (ps.map P3.x).map (fun t => t + v.x) := by
      simp [Function.comp, translateP]
    rw [this]
    exact foldMax_map_add v.x _ _

theorem minY_map_translateP (v : P3) (m : Mesh) (hm : m ≠ []) :
    minY (m.map (translateP v)) = minY m + v.y := by
  cases m with
  | nil => exact absurd rfl hm
  | cons p ps =>
    simp only [List.map_cons, minY, List.map_map]
    have : (ps.map (P3.y ∘ translateP v)) = (ps.map P3.y).map (fun t => t + v.y) := by
      simp [Function.comp, translateP]
    rw [this]
    exact foldMin_map_add v.y _ _

theorem maxY_map_translateP (v : P3) (m : Mesh) (hm : m ≠ []) :
    maxY (m.map (translateP v)) = maxY m + v.y := by
  cases m with
  | nil => exact absurd rfl hm
  | cons p ps =>
    simp only [List.map_cons, maxY, List.map_map]
    have : (ps.map (P3.y ∘ translateP v)) = (ps.map P3.y).map (fun t => t + v.y) := by
      simp [Function.comp, translateP]
    rw [this]
    exact foldMax_map_add v.y _ _

theorem bboxWidth_map_translateP (v : P3) (m : Mesh) (hm : m ≠ []) :
    bboxWidth (m.map (translateP v)) = bboxWidth m := by
  unfold bboxWidth
  rw [minX_map_translateP v m hm, maxX_map_translateP v m hm]
  ring

theorem bboxWidth_map_scaleXY (f : ℚ) (hf : 0 ≤ f) (m : Mesh) :
    bboxWidth (m.map (scaleXY f)) = f * bboxWidth m := by
  unfold bboxWidth
  rw [minX_map_scaleXY f hf, maxX_map_scaleXY f hf]
  ring

theorem zs_map_scaleXY (f : ℚ) (m : Mesh) :
    (m.map (scaleXY f)).map P3.z = m.map P3.z := by
  simp [List.map_map, Function.comp, scaleXY]

theorem zs_map_translateXY (vx vy : ℚ) (m : Mesh) :
    (m.map (translateP ⟨vx, vy, 0⟩)).map P3.z = m.map P3.z := by
  simp [List.map_map, Function.comp, translateP]

theorem translateP_zero (p : P3) : translateP ⟨0, 0, 0⟩ p = p := by
  cases p; simp [translateP]

/-! ## Theorems for claims C9, C8, C10 -/

/-- C9: constructing a `CoinParameters` succeeds iff `diameter > 0.01`,
`thickness > 0.01`, `relief_depth > 0.01`, `relief_depth < thickness`
and `scale > 0.00001` (a `ValueError` is raised otherwise), while
`offset_x`, `offset_y` and `rotation` are unconstrained; on success the
stored fields are exactly the arguments (and the object, a frozen
dataclass, is immutable, as is any Lean structure). -/
theorem mkCoinParameters_ok_iff (shape : CoinShape)
    (d t rd s ox oy rot : ℚ) :
    (exceptOk (mkCoinParameters shape d t rd s ox oy rot) = true ↔
      (1/100 < d ∧ 1/100 < t ∧ 1/100 < rd ∧ rd < t ∧ 1/100000 < s)) ∧
    (∀ p, mkCoinParameters shape d t rd s ox oy rot = .ok p →
      p = ⟨shape, d, t, rd, s, ox, oy, rot⟩) := by
  unfold mkCoinParameters
  constructor
  · split_ifs with h1 h2 h3 h4 h5 <;> simp [exceptOk] <;>
      first
        | (intros; linarith)
        | (refine ⟨by linarith, by linarith, by linarith, by linarith, by linarith⟩)
  · split_ifs with h1 h2 h3 h4 h5 <;> intro p hp <;>
      first
        | (cases hp; rfl)
        | simp at hp

/-- C8: a heightmap whose longest dimension exceeds 2048 px is resized
(when the image I/O succeeds) so that the longest output dimension
equals 2048 and the other dimension is scaled proportionally with
integer truncation; a heightmap at or below 2048 px is never resized
(it is either passed through untouched or only rotated at its original
size). -/
theorem preprocess_resizes_large (env : PreEnv) (rot : ℚ) (w h : ℕ)
    (hread : env.readOk = true) (hproc : env.processOk = true) :
    (max w h > IMAGE_RESIZE_TARGET →
      preprocess_heightmap env rot w h =
        .processed (resizedDims w h) (decide (rot ≠ 0)) ∧
      max (resizedDims w h).1 (resizedDims w h).2 = IMAGE_RESIZE_TARGET ∧
      (w > h → resizedDims w h = (IMAGE_RESIZE_TARGET, IMAGE_RESIZE_TARGET * h / w)) ∧
      (w ≤ h → resizedDims w h = (IMAGE_RESIZE_TARGET * w / h, IMAGE_RESIZE_TARGET))) ∧
    (max w h ≤ IMAGE_RESIZE_TARGET →
      preprocess_heightmap env rot w h = .original ∨
      preprocess_heightmap env rot w h = .processed (w, h) true) := by
  constructor
  · intro hbig
    have hwpos : 0 < max w h := lt_trans (by decide) hbig
    refine ⟨?_, ?_, ?_, ?_⟩
    · unfold preprocess_heightmap
      simp [hread, hproc, hbig]
    · unfold resizedDims
      split_ifs with hwh
      · have hw : 0 < w := lt_of_le_of_lt (Nat.zero_le h) hwh
        have hle : IMAGE_RESIZE_TARGET * h / w ≤ IMAGE_RESIZE_TARGET := by
          calc IMAGE_RESIZE_TARGET * h / w
              ≤ IMAGE_RESIZE_TARGET * w / w :=
                Nat.div_le_div_right (Nat.mul_le_mul_left _ (le_of_lt hwh))
            _ = IMAGE_RESIZE_TARGET := Nat.mul_div_cancel _ hw
        simp [max_eq_left hle]
      · have hwh2 : w ≤ h := le_of_not_lt hwh
        have hh : 0 < h := lt_of_lt_of_le hwpos (by simp [max_le_iff, hwh2])
        have hle : IMAGE_RESIZE_TARGET * w / h ≤ IMAGE_RESIZE_TARGET := by
          calc IMAGE_RESIZE_TARGET * w / h
              ≤ IMAGE_RESIZE_TARGET * h / h :=
                Nat.div_le_div_right (Nat.mul_le_mul_left _ hwh2)
            _ = IMAGE_RESIZE_TARGET := Nat.mul_div_cancel _ hh
        simp [max_eq_right hle]
    · intro hwh; unfold resizedDims; simp [hwh]
    · intro hwh; unfold resizedDims; simp [Nat.not_lt.mpr hwh]
  · intro hsmall
    unfold preprocess_heightmap
    by_cases hrot : rot = 0
    · left; simp [Nat.not_lt.mpr hsmall, hrot]
    · right; simp [Nat.not_lt.mpr hsmall, hrot, hread, hproc]

/-- Witness for C8 at a concrete 4096 × 1024 heightmap: it is resized to
2048 × 512 (longest dimension 2048, aspect preserved). -/
theorem preprocess_resizes_large_witness :
    preprocess_heightmap ⟨true, true⟩ 0 4096 1024 = .processed (2048, 512) false ∧
    max 4096 1024 > IMAGE_RESIZE_TARGET := by
  have h := (preprocess_resizes_large ⟨true, true⟩ 0 4096 1024 rfl rfl).1 (by decide)
  exact ⟨by rw [h.1]; decide, by decide⟩

/-- C10: heightmap preprocessing never fails the pipeline: whenever the
image read or the convert/resize/rotate/save processing raises
internally, `_preprocess_heightmap` returns the original heightmap path
unchanged (so a requested rotation or a needed downsize is silently
skipped); the function is total and never propagates the exception. -/
theorem preprocess_error_returns_original (env : PreEnv) (rot : ℚ) (w h : ℕ)
    (herr : env.readOk = false ∨ env.processOk = false) :
    preprocess_heightmap env rot w h = .original := by
  unfold preprocess_heightmap
  rcases herr with h1 | h1 <;> simp [h1]

/-- Witness for C10: with a failing image read, a 4096 × 4096 heightmap
that would need both a rotation (45°) and a downsize is passed through
unchanged. -/
theorem preprocess_error_returns_original_witness :
    preprocess_heightmap ⟨false, true⟩ 45 4096 4096 = .original :=
  preprocess_error_returns_original ⟨false, true⟩ 45 4096 4096 (Or.inl rfl)

/-! ## Transform-stage helper lemmas -/

theorem map_translateP_zero (l : Mesh) : l.map (translateP ⟨0, 0, 0⟩) = l := by
  have h : translateP (⟨0, 0, 0⟩ : P3) = id := funext translateP_zero
  rw [h, List.map_id]

theorem centerX_map_translateP (v : P3) (m : Mesh) (hm : m ≠ []) :
    centerX (m.map (translateP v)) = centerX m + v.x := by
  unfold centerX
  rw [minX_map_translateP v m hm, maxX_map_translateP v m hm]
  ring

theorem centerY_map_translateP (v : P3) (m : Mesh) (hm : m ≠ []) :
    centerY (m.map (translateP v)) = centerY m + v.y := by
  unfold centerY
  rw [minY_map_translateP v m hm, maxY_map_translateP v m hm]
  ring

theorem transformRotate_zero (rotFn : P3 → P3) (m : Mesh) :
    transformRotate rotFn m 0 = m := by
  simp [transformRotate]

theorem transformScale_ne_nil (mesh : Mesh) (s d : ℚ) (hm : mesh ≠ []) :
    transformScale mesh s d ≠ [] := by
  simpa [transformScale, List.map_eq_nil_iff] using hm

theorem transformCenter_ne_nil (m : Mesh) (hm : m ≠ []) :
    transformCenter m ≠ [] := by
  simpa [transformCenter, List.map_eq_nil_iff] using hm

theorem transformRotate_ne_nil (rotFn : P3 → P3) (m : Mesh) (rot : ℚ) (hm : m ≠ []) :
    transformRotate rotFn m rot ≠ [] := by
  unfold transformRotate
  split_ifs <;> simpa [List.map_eq_nil_iff] using hm

/-! ## Theorems for claims C5, C6 -/

/-- C5 (amended): when `rotationDegrees = 0`, the transform scales the
relief uniformly in XY by `(diameter / width) * (scalePercent / 100)`
with Z untouched, so the XY bounding-box width of the transformed relief is
`diameter * scalePercent / 100` — in particular equal to the diameter
when `scalePercent = 100`; the vertex Z coordinates are returned
unchanged. -/
theorem transform_rot0_width (rotFn : P3 → P3) (mesh : Mesh)
    (s ox oy d : ℚ) (hm : mesh ≠ []) (hw : 0 < bboxWidth mesh)
    (hd : 0 < d) (hs : 0 < s) :
    bboxWidth (transformRelief rotFn mesh s ox oy 0 d) = d * (s / 100) ∧
    (transformRelief rotFn mesh s ox oy 0 d).map P3.z = mesh.map P3.z := by
  have hwx : (0:ℚ) < maxX mesh - minX mesh := hw
  have hfpos : 0 ≤ d / (maxX mesh - minX mesh) * (s / 100) := by positivity
  have hscW : bboxWidth (transformScale mesh s d) = d * (s / 100) := by
    unfold transformScale
    rw [bboxWidth_map_scaleXY _ hfpos]
    unfold bboxWidth
    field_simp
    ring
  have hscne : transformScale mesh s d ≠ [] := transformScale_ne_nil mesh s d hm
  have hcenW : bboxWidth (transformCenter (transformScale mesh s d)) = d * (s / 100) := by
    unfold transformCenter
    rw [bboxWidth_map_translateP _ _ hscne, hscW]
  have hcenne : transformCenter (transformScale mesh s d) ≠ [] :=
    transformCenter_ne_nil _ hscne
  have hz1 : (transformScale mesh s d).map P3.z = mesh.map P3.z := zs_map_scaleXY _ _
  have hz2 : (transformCenter (transformScale mesh s d)).map P3.z = mesh.map P3.z := by
    unfold transformCenter
    rw [zs_map_translateXY, hz1]
  constructor
  · unfold transformRelief transformOffset
    rw [transformRotate_zero]
    split_ifs with hc
    · rw [bboxWidth_map_translateP _ _ hcenne, hcenW]
    · exact hcenW
  · unfold transformRelief transformOffset
    rw [transformRotate_zero]
    split_ifs with hc
    · rw [zs_map_translateXY, hz2]
    · exact hz2

/-- Witness for the amended C5 at a concrete relief (width 2, depth
coordinates 5 and 7), `scalePercent = 100`, `diameter = 30`,
`rotation = 0`: the transformed width is exactly 30 and the Z
coordinates are untouched. -/
theorem transform_rot0_width_witness :
    bboxWidth (transformRelief id [⟨0, 0, 5⟩, ⟨2, 1, 7⟩] 100 0 0 0 30) = 30 ∧
    (transformRelief id [⟨0, 0, 5⟩, ⟨2, 1, 7⟩] 100 0 0 0 30).map P3.z = [5, 7] := by
  have h := transform_rot0_width id [⟨0, 0, 5⟩, ⟨2, 1, 7⟩] 100 0 0 30
    (by simp)
    (by norm_num [bboxWidth, maxX, minX, foldMax, foldMin, max_def, min_def])
    (by norm_num) (by norm_num)
  exact ⟨by rw [h.1]; norm_num, by rw [h.2]; rfl⟩

/-- Counterexample to C5 as stated: with a nonzero rotation the final
XY bounding-box width differs from the diameter even at
`scalePercent = 100`.  Here the library rotation is the quarter-turn
about Z (reached, e.g., when the angle handed to manifold3d comes to
90°), the relief is a 2 × 1 rectangle of nonzero width, and the
transformed width is 15, not the diameter 30. -/
theorem transform_width_rotated_ne :
    bboxWidth [(⟨0, 0, 0⟩ : P3), ⟨2, 0, 0⟩, ⟨2, 1, 0⟩, ⟨0, 1, 0⟩] ≠ 0 ∧
    bboxWidth (transformRelief (fun p => ⟨-p.y, p.x, p.z⟩)
      [⟨0, 0, 0⟩, ⟨2, 0, 0⟩, ⟨2, 1, 0⟩, ⟨0, 1, 0⟩] 100 0 0 90 30) = 15 ∧
    (15 : ℚ) ≠ 30 := by
  refine
    ⟨by norm_num [bboxWidth, maxX, minX, foldMax, foldMin, max_def, min_def], ?_, by norm_num⟩
  norm_num [transformRelief, transformScale, transformCenter, transformRotate, transformOffset,
    scaleXY, translateP, bboxWidth, centerX, centerY, maxX, minX, maxY, minY,
    foldMax, foldMin, max_def, min_def]

/-- C6: the final offset step translates the scaled, centred, rotated
relief by exactly `(offsetX/100 * diameter, -(offsetY/100) * diameter,
0)` — pointwise, and hence the XY bounding-box centre shifts by exactly
that vector relative to the unoffset run. -/
theorem transform_offset_translates (rotFn : P3 → P3) (mesh : Mesh)
    (s ox oy rot d : ℚ) (hm : mesh ≠ []) :
    transformRelief rotFn mesh s ox oy rot d =
      (transformRelief rotFn mesh s 0 0 rot d).map
        (translateP ⟨ox / 100 * d, -(oy / 100) * d, 0⟩) ∧
    centerX (transformRelief rotFn mesh s ox oy rot d) =
      centerX (transformRelief rotFn mesh s 0 0 rot d) + ox / 100 * d ∧
    centerY (transformRelief rotFn mesh s ox oy rot d) =
      centerY (transformRelief rotFn mesh s 0 0 rot d) + -(oy / 100) * d := by
  have hrotne : transformRotate rotFn (transformCenter (transformScale mesh s d)) rot ≠ [] :=
    transformRotate_ne_nil _ _ _ (transformCenter_ne_nil _ (transformScale_ne_nil mesh s d hm))
  have hzero : transformRelief rotFn mesh s 0 0 rot d =
      transformRotate rotFn (transformCenter (transformScale mesh s d)) rot := by
    unfold transformRelief transformOffset
    norm_num
  have hmain : transformRelief rotFn mesh s ox oy rot d =
      (transformRotate rotFn (transformCenter (transformScale mesh s d)) rot).map
        (translateP ⟨ox / 100 * d, -(oy / 100) * d, 0⟩) := by
    unfold transformRelief transformOffset
    split_ifs with hc
    · rfl
    · push_neg at hc
      rw [hc.1, hc.2, map_translateP_zero]
  refine ⟨by rw [hmain, hzero], ?_, ?_⟩
  · rw [hmain, hzero, centerX_map_translateP _ _ hrotne]
  · rw [hmain, hzero, centerY_map_translateP _ _ hrotne]

/-- Witness for C6 at `offsetX = 50 %, offsetY = 0, diameter = 30`: the
XY centre shifts by exactly `(+15, 0)` mm from the unoffset position. -/
theorem transform_offset_translates_witness :
    centerX (transformRelief id [⟨0, 0, 0⟩, ⟨2, 1, 3⟩] 100 50 0 0 30) =
      centerX (transformRelief id [⟨0, 0, 0⟩, ⟨2, 1, 3⟩] 100 0 0 0 30) + 15 ∧
    centerY (transformRelief id [⟨0, 0, 0⟩, ⟨2, 1, 3⟩] 100 50 0 0 30) =
      centerY (transformRelief id [⟨0, 0, 0⟩, ⟨2, 1, 3⟩] 100 0 0 0 30) + 0 := by
  have h := transform_offset_translates id [⟨0, 0, 0⟩, ⟨2, 1, 3⟩] 100 50 0 0 30 (by simp)
  refine ⟨?_, ?_⟩
  · rw [h.2.1]; norm_num
  · rw [h.2.2]; norm_num

/-! ## Theorem for claim C7 -/

/-- C7 fails on the code: at `diameter = 30`, `height = 2` the square
fallback cuboid of the square arm is shifted up by `height / 2` relative to the
primary extruded square — the point `(0, 0, 1/2)` lies in the primary
solid but not in the fallback, and `(0, 0, 5/2)` lies in the fallback
but not in the primary, so the two constructions do not occupy the same
region. -/
theorem squareFallback_ne_squareExtruded :
    squareExtruded 30 2 ⟨0, 0, 1/2⟩ = true ∧
    squareFallback 30 2 ⟨0, 0, 1/2⟩ = false ∧
    squareFallback 30 2 ⟨0, 0, 5/2⟩ = true ∧
    squareExtruded 30 2 ⟨0, 0, 5/2⟩ = false := by
  refine ⟨?_, ?_, ?_, ?_⟩ <;>
    norm_num [squareExtruded, squareFallback, translateRegion, cubeRegion]

/-! ## Theorems for claim C3 -/

theorem combine_characterization (ops : MOps) (relief base : Manifold)
    (shape : CoinShape) (d rd bh : ℚ) :
    combine_relief_with_base ops relief base shape d rd bh =
      (if (ops.intersectOp relief
              (ops.createShape shape d (rd + DEFAULT_RELIEF_BASE_THICKNESS))).numVert = 0 ∨
          (ops.unionOp base (ops.translateZ
              (ops.intersectOp relief
                (ops.createShape shape d (rd + DEFAULT_RELIEF_BASE_THICKNESS))) bh)).status ≠
            M3dStatus.noError ∨
          (ops.unionOp base (ops.translateZ
              (ops.intersectOp relief
                (ops.createShape shape d (rd + DEFAULT_RELIEF_BASE_THICKNESS))) bh)).numVert ≤
            base.numVert then
        CombineResult.viaB (ops.alternative relief shape d (bh + rd))
      else
        CombineResult.viaA (ops.unionOp base (ops.translateZ
          (ops.intersectOp relief
            (ops.createShape shape d (rd + DEFAULT_RELIEF_BASE_THICKNESS))) bh))) := by
  unfold combine_relief_with_base
  by_cases h0 : (ops.intersectOp relief
      (ops.createShape shape d (rd + DEFAULT_RELIEF_BASE_THICKNESS))).numVert = 0 <;>
    by_cases hst : (ops.intersectOp relief
      (ops.createShape shape d (rd + DEFAULT_RELIEF_BASE_THICKNESS))).status =
        M3dStatus.noError <;>
    by_cases hu : (ops.unionOp base (ops.translateZ
      (ops.intersectOp relief
        (ops.createShape shape d (rd + DEFAULT_RELIEF_BASE_THICKNESS))) bh)).status =
          M3dStatus.noError <;>
    by_cases hn : (ops.unionOp base (ops.translateZ
      (ops.intersectOp relief
        (ops.createShape shape d (rd + DEFAULT_RELIEF_BASE_THICKNESS))) bh)).numVert ≤
          base.numVert <;>
    simp [h0, hst, hu, hn]

/-- C3: the combiner invokes Strategy B exactly when the clip of the
relief with the coin mask has zero vertices, or the union with the base
reports an error status, or the vertex count of the union does not
exceed that of the base; when none of these holds it returns the union of the base
coin with the clipped relief translated up by `base_height`. -/
theorem combine_strategyB_iff (ops : MOps) (relief base : Manifold)
    (shape : CoinShape) (d rd bh : ℚ) :
    ((∃ r, combine_relief_with_base ops relief base shape d rd bh = .viaB r) ↔
      ((ops.intersectOp relief
          (ops.createShape shape d (rd + DEFAULT_RELIEF_BASE_THICKNESS))).numVert = 0 ∨
        (ops.unionOp base (ops.translateZ
            (ops.intersectOp relief
              (ops.createShape shape d (rd + DEFAULT_RELIEF_BASE_THICKNESS))) bh)).status ≠
          M3dStatus.noError ∨
        (ops.unionOp base (ops.translateZ
            (ops.intersectOp relief
              (ops.createShape shape d (rd + DEFAULT_RELIEF_BASE_THICKNESS))) bh)).numVert ≤
          base.numVert)) ∧
    (¬((ops.intersectOp relief
          (ops.createShape shape d (rd + DEFAULT_RELIEF_BASE_THICKNESS))).numVert = 0 ∨
        (ops.unionOp base (ops.translateZ
            (ops.intersectOp relief
              (ops.createShape shape d (rd + DEFAULT_RELIEF_BASE_THICKNESS))) bh)).status ≠
          M3dStatus.noError ∨
        (ops.unionOp base (ops.translateZ
            (ops.intersectOp relief
              (ops.createShape shape d (rd + DEFAULT_RELIEF_BASE_THICKNESS))) bh)).numVert ≤
          base.numVert) →
      combine_relief_with_base ops relief base shape d rd bh =
        .viaA (ops.unionOp base (ops.translateZ
          (ops.intersectOp relief
            (ops.createShape shape d (rd + DEFAULT_RELIEF_BASE_THICKNESS))) bh))) := by
  rw [combine_characterization]
  split_ifs with hcond
  · simp [hcond]
  · simp [hcond]

/-- An operation table whose boolean results are fixed small manifolds,
used to exercise the combiner and orchestrator theorems on concrete
inputs. -/
def demoOps : MOps where
  intersectOp := fun _ _ => ⟨5, 5, .noError⟩
  unionOp := fun _ _ => ⟨20, 20, .noError⟩
  translateZ := fun m _ => m
  createShape := fun _ _ _ => ⟨8, 8, .noError⟩
  alternative := fun _ _ _ _ => some ⟨9, 9, .noError⟩

/-- Witness for C3 on `demoOps`: the clip has 5 vertices, the union has
a clean status and 20 > 8 vertices, so the union of Strategy A is returned. -/
theorem combine_strategyB_iff_witness :
    combine_relief_with_base demoOps ⟨100, 100, .noError⟩ ⟨8, 8, .noError⟩ .circle 30 1 2 =
      .viaA ⟨20, 20, .noError⟩ :=
  (combine_strategyB_iff demoOps ⟨100, 100, .noError⟩ ⟨8, 8, .noError⟩ .circle 30 1 2).2
    (by decide)

/-! ## Theorems for claims C1, C2, C4 -/

/-- C1: whenever `base_height = thickness - relief_depth <= 0`,
`generate_stl` returns `success = false`, constructs no coin shape,
attempts no boolean combination and no export, writes no output file,
and — provided the relief step itself succeeded, so that execution
reaches the guard — its error message is the guard message, which
names the thickness and relief-depth values. -/
theorem generate_stl_base_height_guard (env : GenEnv) (cp : CoinParameters)
    (h : cp.thickness - cp.relief_depth ≤ 0) :
    (generate_stl env cp).success = false ∧
    (generate_stl env cp).shapeConstructed = false ∧
    (generate_stl env cp).combineAttempted = false ∧
    (generate_stl env cp).exportAttempted = false ∧
    (generate_stl env cp).fileState = FileState.absent ∧
    (env.reliefResult.isSome = true →
      (generate_stl env cp).message =
        some (baseHeightErrorMsg (cp.thickness - cp.relief_depth) cp.thickness
          cp.relief_depth)) := by
  cases henv : env.reliefResult with
  | none => simp [generate_stl, henv]
  | some m => simp [generate_stl, henv, h]

/-- Witness for C1 at `thickness = 3`, `relief_depth = 3` with a
successful relief step: the call fails with the message naming both
values, and no file is written. -/
theorem generate_stl_base_height_guard_witness :
    (generate_stl ⟨some ⟨100, 100, .noError⟩, demoOps, .ok, ""⟩
      ⟨.circle, 30, 3, 3, 100, 0, 0, 0⟩).success = false ∧
    (generate_stl ⟨some ⟨100, 100, .noError⟩, demoOps, .ok, ""⟩
      ⟨.circle, 30, 3, 3, 100, 0, 0, 0⟩).message =
      some ("Invalid coin parameters: base height 0mm (thickness: 3mm, relief: 3mm). Relief depth must be less than thickness.") ∧
    (generate_stl ⟨some ⟨100, 100, .noError⟩, demoOps, .ok, ""⟩
      ⟨.circle, 30, 3, 3, 100, 0, 0, 0⟩).fileState = FileState.absent := by
  have h := generate_stl_base_height_guard ⟨some ⟨100, 100, .noError⟩, demoOps, .ok, ""⟩
    ⟨.circle, 30, 3, 3, 100, 0, 0, 0⟩ (by norm_num)
  refine ⟨h.1, ?_, h.2.2.2.2.1⟩
  rw [h.2.2.2.2.2 rfl]
  show some (baseHeightErrorMsg ((3:ℚ) - 3) 3 3) = _
  have h30 : (3:ℚ) - 3 = 0 := by norm_num
  rw [h30]
  rfl

/-- C2: `generate_stl` is a total function of its (oracle) inputs and
returns exactly `(true, none)` on success and `(false, some message)`
on every failure — the source wraps its whole body in one
`try`/`except Exception` handler that returns `(False, message)`, so no
exception propagates to the caller. -/
theorem generate_stl_total_result (env : GenEnv) (cp : CoinParameters) :
    ((generate_stl env cp).success = true ∧ (generate_stl env cp).message = none) ∨
    ((generate_stl env cp).success = false ∧
      ∃ m, (generate_stl env cp).message = some m) := by
  cases henv : env.reliefResult with
  | none => simp [generate_stl, henv]
  | some m =>
    by_cases hb : cp.thickness - cp.relief_depth ≤ 0
    · simp [generate_stl, henv, hb]
    · cases hc : combineToOption (combine_relief_with_base env.ops m
          (env.ops.createShape cp.shape cp.diameter (cp.thickness - cp.relief_depth))
          cp.shape cp.diameter cp.relief_depth (cp.thickness - cp.relief_depth)) with
      | none => simp [generate_stl, henv, hb, hc]
      | some f =>
        cases hx : env.exportOutcome <;> simp [generate_stl, henv, hb, hc, hx]

/-- C4 (amended): export is not atomic — when the export tail is
reached and the external write fails after partly writing,
`generate_stl` returns `(false, message)` but performs no cleanup: the
partially-written file remains at the output path (the code hands
`output_path` directly to `export`, with no temporary path, rename, or
delete-on-error). -/
theorem generate_stl_export_failure_leaves_file (env : GenEnv) (cp : CoinParameters)
    (m f : Manifold) (hrelief : env.reliefResult = some m)
    (hb : ¬cp.thickness - cp.relief_depth ≤ 0)
    (hcomb : combineToOption (combine_relief_with_base env.ops m
        (env.ops.createShape cp.shape cp.diameter (cp.thickness - cp.relief_depth))
        cp.shape cp.diameter cp.relief_depth (cp.thickness - cp.relief_depth)) = some f)
    (hfail : env.exportOutcome = ExportOutcome.failAfterWrite) :
    (generate_stl env cp).success = false ∧
    (generate_stl env cp).exportAttempted = true ∧
    (generate_stl env cp).fileState = FileState.incomplete ∧
    (generate_stl env cp).message = some (EXPORT_ERROR_HEAD ++ env.exportError) := by
  simp [generate_stl, hrelief, hb, hcomb, hfail]

/-- Witness for the amended C4: a concrete run in which the write fails
midway; the call reports failure and the half-written file stays. -/
theorem generate_stl_export_failure_leaves_file_witness :
    (generate_stl ⟨some ⟨100, 100, .noError⟩, demoOps, .failAfterWrite, "disk full"⟩
      ⟨.circle, 30, 3, 1, 100, 0, 0, 0⟩).success = false ∧
    (generate_stl ⟨some ⟨100, 100, .noError⟩, demoOps, .failAfterWrite, "disk full"⟩
      ⟨.circle, 30, 3, 1, 100, 0, 0, 0⟩).fileState = FileState.incomplete := by
  have h := generate_stl_export_failure_leaves_file
    ⟨some ⟨100, 100, .noError⟩, demoOps, .failAfterWrite, "disk full"⟩
    ⟨.circle, 30, 3, 1, 100, 0, 0, 0⟩ ⟨100, 100, .noError⟩ ⟨20, 20, .noError⟩
    rfl (by norm_num) (by decide) rfl
  exact ⟨h.1, h.2.2.1⟩

/-- Counterexample to C4 as stated: an invocation in which STL writing
fails yet a partially-written file exists at the output path afterwards
(the exporter neither writes to a temporary path nor deletes on
error). -/
theorem generate_stl_not_atomic_counterexample :
    (generate_stl ⟨some ⟨100, 100, .noError⟩, demoOps, .failAfterWrite, "io error"⟩
      ⟨.circle, 30, 3, 1, 100, 0, 0, 0⟩).success = false ∧
    (generate_stl ⟨some ⟨100, 100, .noError⟩, demoOps, .failAfterWrite, "io error"⟩
      ⟨.circle, 30, 3, 1, 100, 0, 0, 0⟩).fileState = FileState.incomplete := by
  constructor <;>
    · show _
      norm_num [generate_stl, combineToOption, combine_characterization, demoOps]

end CoinMaker
